import Mathlib

/-!
# Verification of the xto6 transformer pipeline

Shallow embedding of `src/transformer.js` (the `Transformer` class) and of the
AST-generator module (`read` / `readFile`).  External collaborators
(the acorn parser, the coffee front end, escodegen's `generate`, esformatter's
`format`, the six lowering-pass modules, and Node's `fs`) are not part of the
excerpt; they are modelled as function parameters or, where the spec fixes
their contract, as explicit definitions noted in the doc comment.
-/

namespace Xto6

/-- Abstract syntax trees.  `emptyObj` is the plain `{}` object that
`this.ast` is initialised to in the constructor (transformer.js line 25);
real trees produced by the parser are opaque to the orchestrator, so a free
node constructor suffices. -/
inductive Ast where
  | emptyObj : Ast
  | node : String → Ast → Ast
  | seq : Ast → Ast → Ast
deriving DecidableEq

/-- The six lowering passes imported at transformer.js lines 8-13.  Their
bodies live in modules outside the excerpt, so each pass is a tag here and
the pass semantics is a parameter `sem : Pass → Ast → Ast` of the
operations that run them.  `letTrans` is the module imported from
`./transformation/let.js`. -/
inductive Pass where
  | classes
  | templateString
  | arrowFunction
  | letTrans
  | defaultArgs
  | objectMethods
deriving DecidableEq

/-- The value stored under `options.formatter`: the disabled sentinel
`false` or a formatter-configuration object (modelled as a key/value
list). -/
inductive FmtSetting where
  | fls
  | cfg : List (String × Bool) → FmtSetting
deriving DecidableEq

/-- The `options.transformers` record.  Each known key is `Option Bool`:
`none` is JavaScript `undefined` (key absent), `some b` a present boolean.
`blockScopedBindings` is a key the spec names but the code never reads
(the code reads `let`, field `letB` here); it is carried through the merge
like any other caller-supplied key and ignored by `prepareTransformations`. -/
structure Transformers where
  classes : Option Bool := none
  stringTemplates : Option Bool := none
  arrowFunctions : Option Bool := none
  letB : Option Bool := none
  defaultArguments : Option Bool := none
  objectMethods : Option Bool := none
  blockScopedBindings : Option Bool := none
deriving DecidableEq

/-- A JavaScript options object as the transformer and the AST generator
use it.  Beyond `transformers` and `formatter` it carries the keys the
AST generator reads or writes (`sync`, `callback` presence, `coffee`,
`ranges`, `onComment`, `onToken`, `plugins.jsx`, `ecmaVersion`); the same
object flows from the Transformer into `astGenerator.read`
(transformer.js line 80). -/
structure Options where
  transformers : Transformers := {}
  formatter : Option FmtSetting := none
  sync : Option Bool := none
  hasCallback : Bool := false
  coffee : Option Bool := none
  ranges : Option Bool := none
  onCommentSet : Bool := false
  onTokenSet : Bool := false
  pluginsJsx : Option Bool := none
  ecmaVersion : Option Nat := none
deriving DecidableEq

/-- lodash `merge` field rule: a source value overrides the destination
unless the source value is `undefined`. -/
def jsMergeField {α : Type} (dst src : Option α) : Option α :=
  match src with
  | some v => some v
  | none => dst

/-- lodash `merge` on the `transformers` sub-record: deep merge, key by
key. -/
def mergeTransformers (dst src : Transformers) : Transformers where
  classes := jsMergeField dst.classes src.classes
  stringTemplates := jsMergeField dst.stringTemplates src.stringTemplates
  arrowFunctions := jsMergeField dst.arrowFunctions src.arrowFunctions
  letB := jsMergeField dst.letB src.letB
  defaultArguments := jsMergeField dst.defaultArguments src.defaultArguments
  objectMethods := jsMergeField dst.objectMethods src.objectMethods
  blockScopedBindings := jsMergeField dst.blockScopedBindings src.blockScopedBindings

/-- lodash `merge(dst, src)` on a whole options object.  `merge` writes
into `dst` in place and returns it, so the result below is both the merged
options and the new value of the destination object. -/
def mergeOptions (dst src : Options) : Options where
  transformers := mergeTransformers dst.transformers src.transformers
  formatter := jsMergeField dst.formatter src.formatter
  sync := jsMergeField dst.sync src.sync
  hasCallback := dst.hasCallback || src.hasCallback
  coffee := jsMergeField dst.coffee src.coffee
  ranges := jsMergeField dst.ranges src.ranges
  onCommentSet := dst.onCommentSet || src.onCommentSet
  onTokenSet := dst.onTokenSet || src.onTokenSet
  pluginsJsx := jsMergeField dst.pluginsJsx src.pluginsJsx
  ecmaVersion := jsMergeField dst.ecmaVersion src.ecmaVersion

/-- Embeds `Transformer.defaultOptions` (transformer.js lines 156-166): all six
passes on (the block-scoped-bindings key is spelled `let`), formatter
`false`. -/
def defaultOptions : Options where
  transformers :=
    { classes := some true
      stringTemplates := some true
      arrowFunctions := some true
      letB := some true
      defaultArguments := some true
      objectMethods := some true }
  formatter := some FmtSetting.fls

/-- The key string each `doTransform` call passes (transformer.js lines
48-53), mapped to the field it selects.  The key for the let pass is
`let`, not `blockScopedBindings`. -/
def transformerFlag (t : Transformers) : Pass → Option Bool
  | Pass.classes => t.classes
  | Pass.templateString => t.stringTemplates
  | Pass.arrowFunction => t.arrowFunctions
  | Pass.letTrans => t.letB
  | Pass.defaultArgs => t.defaultArguments
  | Pass.objectMethods => t.objectMethods

/-- Embeds `shouldTransform` (transformer.js lines 38-40):
`typeof this.options.transformers[key] !== 'undefined' &&
 this.options.transformers[key]`. -/
def shouldTransform (opts : Options) (key : Pass) : Bool :=
  match transformerFlag opts.transformers key with
  | some b => b
  | none => false

/-- Embeds `doTransform` (transformer.js lines 42-46): push the transformation
when its key is enabled. -/
def doTransform (opts : Options) (key : Pass) (transformations : List Pass) : List Pass :=
  if shouldTransform opts key then transformations ++ [key] else transformations

/-- Embeds `prepareTransformations` (transformer.js lines 36-54): the six
`doTransform` calls in source order. -/
def prepareTransformations (opts : Options) : List Pass :=
  doTransform opts Pass.objectMethods
    (doTransform opts Pass.defaultArgs
      (doTransform opts Pass.letTrans
        (doTransform opts Pass.arrowFunction
          (doTransform opts Pass.templateString
            (doTransform opts Pass.classes [])))))

/-- The declared priority order of the pass table (spec §4.2), which is
also the order of the `doTransform` calls. -/
def orderedPasses : List Pass :=
  [Pass.classes, Pass.templateString, Pass.arrowFunction,
   Pass.letTrans, Pass.defaultArgs, Pass.objectMethods]

/-- The `Transformer` instance state: `sourceCode`, `ast`, `options`,
`transformations` (transformer.js lines 23-27). -/
structure TransformerT where
  sourceCode : String
  ast : Ast
  options : Options
  transformations : List Pass
deriving DecidableEq

/-- The constructor (transformer.js lines 21-31).  `this.options =
merge(this.constructor.defaultOptions, options)` mutates
`Transformer.defaultOptions` in place and aliases `this.options` to it,
so the constructor yields both the new instance and the new value of the
shared `defaultOptions` object. -/
def constructTransformer (defaults : Options) (options : Options) :
    TransformerT × Options :=
  let merged := mergeOptions defaults options
  ({ sourceCode := ""
     ast := Ast.emptyObj
     options := merged
     transformations := prepareTransformations merged }, merged)

/-- Embeds `astGenerator.read` (part_000 lines 41-61).  The function writes the
fields `ranges`, `onComment`, `onToken` and `plugins` into the very
options object it is handed, optionally runs the coffee front end, then
parses.  The acorn parser plus `escodegen.attachComments` is the
parameter `parse`; `coffee.compile` is `coffeeCompile`.  The result pairs
`{ast, js}` with the mutated options object. -/
def astGeneratorRead (parse : String → Ast) (coffeeCompile : String → String)
    (js : String) (options : Options) : (Ast × String) × Options :=
  let options := { options with
    ranges := some true
    onCommentSet := true
    onTokenSet := true
    pluginsJsx := some true }
  let js := if options.coffee.getD false then coffeeCompile js else js
  ((parse js, js), options)

/-- Embeds `Transformer.read` (transformer.js lines 78-85): feeds `this.options`
to `astGenerator.read` (which mutates it) and stores the returned tree
and text. -/
def TransformerT.read (parse : String → Ast) (coffeeCompile : String → String)
    (st : TransformerT) (string : String) : TransformerT :=
  let r := astGeneratorRead parse coffeeCompile string st.options
  { st with ast := r.1.1, sourceCode := r.1.2, options := r.2 }

/-- Embeds `applyTransformation` (transformer.js lines 92-96): run one pass on
`this.ast` in place. -/
def TransformerT.applyTransformation (sem : Pass → Ast → Ast)
    (st : TransformerT) (transformation : Pass) : TransformerT :=
  { st with ast := sem transformation st.ast }

/-- The `for` loop of `applyTransformations` (transformer.js lines
103-107), entered at index `i`; each iteration re-reads
`this.transformations`. -/
def applyTransformationsFrom (sem : Pass → Ast → Ast)
    (st : TransformerT) (i : Nat) : TransformerT :=
  if h : i < st.transformations.length then
    applyTransformationsFrom sem
      (st.applyTransformation sem (st.transformations.get ⟨i, h⟩)) (i + 1)
  else st
termination_by st.transformations.length - i
decreasing_by simp [TransformerT.applyTransformation]; omega

/-- Embeds `applyTransformations` (transformer.js lines 101-109). -/
def TransformerT.applyTransformations (sem : Pass → Ast → Ast)
    (st : TransformerT) : TransformerT :=
  applyTransformationsFrom sem st 0

/-- Embeds `out` (transformer.js lines 116-134).  `codeGenerator.generate`
with its fixed config is the parameter `gen` (it receives `this.ast` and
`this.sourceCode`); `formatter.format` is `fmt` and receives the raw
value of `this.options.formatter`, which is compared against the literal
`false` (`this.options.formatter !== false`). -/
def TransformerT.out (gen : Ast → String → String)
    (fmt : String → Option FmtSetting → String) (st : TransformerT) : String :=
  let result := gen st.ast st.sourceCode
  if st.options.formatter = some FmtSetting.fls then result
  else fmt result st.options.formatter

/-- The spec's error taxonomy (§7); the transformer source itself never
constructs any of these. -/
inductive PipelineError where
  | syntaxErr
  | stateErr
  | ioErr
deriving DecidableEq

/-- Wraps `applyTransformations` under an error-capable result type: the source
(lines 101-109) contains no pipeline-state check and no throw, so the
result is unconditionally `ok`. -/
def applyTransformationsChecked (sem : Pass → Ast → Ast)
    (st : TransformerT) : Except PipelineError TransformerT :=
  Except.ok (st.applyTransformations sem)

/-- Wraps `out` under an error-capable result type: the source (lines 116-134)
performs no pipeline-state check and no throw. -/
def outChecked (gen : Ast → String → String)
    (fmt : String → Option FmtSetting → String)
    (st : TransformerT) : Except PipelineError String :=
  Except.ok (st.out gen fmt)

/-- Outcome of one file-system write attempt. -/
inductive IOOutcome where
  | success
  | failure : String → IOOutcome
deriving DecidableEq

/-- The `callback` argument as `typeof callback === 'function'` sees it:
absent, present but not a function, or a function. -/
inductive JsCallbackArg where
  | missing
  | notFunction
  | func
deriving DecidableEq

/-- Modelled from the spec: Node's `fs.writeFile` is an external
collaborator; per §6 its async path invokes the callback exactly once,
with an error argument on failure and a null error on success.  The list
records the argument of each callback invocation. -/
def fsWriteFileCallbackCalls (outcome : IOOutcome) : List (Option String) :=
  match outcome with
  | IOOutcome.success => [none]
  | IOOutcome.failure e => [some e]

/-- What a `writeFile` call does: a synchronous write, or an asynchronous
write together with the recorded callback invocations. -/
inductive WriteEffect where
  | syncWrite : String → String → WriteEffect
  | asyncWrite : String → String → List (Option String) → WriteEffect
deriving DecidableEq

/-- Embeds `writeFile` (transformer.js lines 142-152): render via `out`, then
`fs.writeFile` with the callback when `typeof callback === 'function'`,
else `fs.writeFileSync`. -/
def TransformerT.writeFile (gen : Ast → String → String)
    (fmt : String → Option FmtSetting → String) (st : TransformerT)
    (filename : String) (callback : JsCallbackArg) (outcome : IOOutcome) :
    WriteEffect :=
  let code := st.out gen fmt
  match callback with
  | JsCallbackArg.func =>
      WriteEffect.asyncWrite filename code (fsWriteFileCallbackCalls outcome)
  | _ => WriteEffect.syncWrite filename code

/-- A JavaScript value as it reaches the AST generator's fs callback:
`null`, `undefined`, a string, or an `Error` object. -/
inductive JsVal where
  | nullv
  | undef
  | strv : String → JsVal
  | errv : String → JsVal
deriving DecidableEq

/-- Node's `fs.readFile` is an external collaborator: its callback
receives `(err, data)` — on success `err` is `null` and `data` the file
contents, on failure `err` is the `Error` and `data` is `undefined`. -/
def fsReadFile {α : Type} (outcome : Except String String)
    (handler : JsVal → JsVal → α) : α :=
  match outcome with
  | Except.ok contents => handler JsVal.nullv (JsVal.strv contents)
  | Except.error e => handler (JsVal.errv e) JsVal.undef

/-- Result of `astGenerator.readFile` (part_000 lines 14-31): the sync
branch returns `read`'s result (or throws the `readFileSync` error
synchronously); the async branch registers an fs handler, and we record
which value that handler passes to `this.read` (or `none` when
`options.callback` is unset, line 25). -/
inductive ReadFileResult where
  | syncOk : (Ast × String) × Options → ReadFileResult
  | syncThrow : String → ReadFileResult
  | asyncDelivered : Option JsVal → ReadFileResult
deriving DecidableEq

/-- Embeds `astGenerator.readFile` (part_000 lines 14-31).  The coffee flag
defaults from the filename; then either `fs.readFileSync` + `read`, or
`fs.readFile` with an arrow that binds ONLY the first callback parameter
— Node's error slot — as `js` and hands it to `this.read`, the data
parameter going unused. -/
def astGeneratorReadFile (parse : String → Ast) (coffeeCompile : String → String)
    (file : String) (fileOutcome : Except String String) (options : Options) :
    ReadFileResult :=
  let options :=
    if options.coffee = none then
      { options with coffee := some (file.endsWith ".coffee") }
    else options
  if options.sync.getD false then
    match fileOutcome with
    | Except.ok js =>
        ReadFileResult.syncOk (astGeneratorRead parse coffeeCompile js options)
    | Except.error e => ReadFileResult.syncThrow e
  else
    ReadFileResult.asyncDelivered
      (fsReadFile fileOutcome (fun js _data =>
        if options.hasCallback then some js else none))

/-- The indexed `for` loop over `this.transformations` is a left fold of
the pass list from the current index onward over the tree. -/
theorem applyTransformationsFrom_eq (sem : Pass → Ast → Ast)
    (st : TransformerT) (i : Nat) :
    applyTransformationsFrom sem st i =
      { st with ast :=
          (st.transformations.drop i).foldl (fun a p => sem p a) st.ast } := by
  generalize hn : st.transformations.length - i = n
  induction n generalizing st i with
  | zero =>
      rw [applyTransformationsFrom]
      have h : ¬ i < st.transformations.length := by omega
      rw [dif_neg h]
      rw [List.drop_eq_nil_of_le (by omega)]
      simp
  | succ n ih =>
      have h : i < st.transformations.length := by omega
      rw [applyTransformationsFrom, dif_pos h]
      have hlen :
          (st.applyTransformation sem (st.transformations.get ⟨i, h⟩)).transformations.length
            - (i + 1) = n := by
        simp only [TransformerT.applyTransformation]
        omega
      rw [ih _ _ hlen]
      simp only [TransformerT.applyTransformation, List.get_eq_getElem]
      rw [List.drop_eq_getElem_cons h, List.foldl_cons]

/-- Proves `applyTransformations` folds the whole stored pass list, in order,
over the current tree, and changes nothing else. -/
theorem applyTransformations_eq (sem : Pass → Ast → Ast) (st : TransformerT) :
    st.applyTransformations sem =
      { st with ast := st.transformations.foldl (fun a p => sem p a) st.ast } := by
  rw [TransformerT.applyTransformations, applyTransformationsFrom_eq]
  rfl

/-- The six sequential `doTransform` pushes build exactly the filter of
the declared pass order by the enabled-key predicate. -/
theorem prepareTransformations_eq_filter (opts : Options) :
    prepareTransformations opts = orderedPasses.filter (shouldTransform opts) := by
  simp only [prepareTransformations, doTransform, orderedPasses, List.filter]
  cases shouldTransform opts Pass.classes <;>
    cases shouldTransform opts Pass.templateString <;>
    cases shouldTransform opts Pass.arrowFunction <;>
    cases shouldTransform opts Pass.letTrans <;>
    cases shouldTransform opts Pass.defaultArgs <;>
    cases shouldTransform opts Pass.objectMethods <;>
    simp

/-- Multiplicity of a pass in a filtered pass list. -/
theorem count_filter_pass (q : Pass → Bool) (p : Pass) (l : List Pass) :
    (l.filter q).count p = if q p = true then l.count p else 0 := by
  induction l with
  | nil => simp
  | cons a l ih =>
      rcases Decidable.em (a = p) with rfl | hap
      · cases hqa : q a <;>
          simp [List.filter_cons, hqa, List.count_cons, ih]
      · cases hqa : q a <;>
          simp [List.filter_cons, hqa, List.count_cons, ih, hap]

/-- Each pass occurs exactly once in the declared order. -/
theorem count_orderedPasses (p : Pass) : orderedPasses.count p = 1 := by
  cases p <;> decide

/-- C1: for every configuration, `applyTransformations` applies exactly
the passes enabled at configuration time — the stored list is the filter
of the fixed priority order (Classes, TemplateStrings, ArrowFunctions,
BlockScopedBindings via the `let` key, DefaultArguments,
ObjectMethodShorthand) by the enabled predicate, an enabled pass occurs
exactly once and a disabled pass never — and runs that list in order as
a left fold over the one stored tree, touching nothing else. -/
theorem c1_enabled_passes_once_in_order
    (defaults options : Options) (sem : Pass → Ast → Ast) (t : TransformerT)
    (ht : t = (constructTransformer defaults options).1) :
    t.transformations = orderedPasses.filter (shouldTransform t.options)
    ∧ (∀ p : Pass, shouldTransform t.options p = true → t.transformations.count p = 1)
    ∧ (∀ p : Pass, shouldTransform t.options p = false → t.transformations.count p = 0)
    ∧ t.applyTransformations sem =
        { t with ast := t.transformations.foldl (fun a p => sem p a) t.ast } := by
  have htr : t.transformations = orderedPasses.filter (shouldTransform t.options) := by
    subst ht
    simp [constructTransformer, prepareTransformations_eq_filter]
  refine ⟨htr, ?_, ?_, applyTransformations_eq sem t⟩
  · intro p hp
    rw [htr, count_filter_pass, if_pos hp, count_orderedPasses]
  · intro p hp
    rw [htr, count_filter_pass, if_neg (by simp [hp])]

/-- Witness for C1 at a concrete configuration: defaults with an
override disabling the arrow-function pass. -/
theorem c1_enabled_passes_once_in_order_witness :
    (let t := (constructTransformer defaultOptions
        { transformers := { arrowFunctions := some false } }).1
     t.transformations.count Pass.classes = 1
       ∧ t.transformations.count Pass.arrowFunction = 0) := by
  refine ⟨?_, ?_⟩
  · exact (c1_enabled_passes_once_in_order defaultOptions
      { transformers := { arrowFunctions := some false } } (fun _ a => a) _ rfl).2.1
      Pass.classes (by decide)
  · exact (c1_enabled_passes_once_in_order defaultOptions
      { transformers := { arrowFunctions := some false } } (fun _ a => a) _ rfl).2.2.1
      Pass.arrowFunction (by decide)

/-- C10: `applyTransformation` and `applyTransformations` change only the
`ast` field — `sourceCode`, `options` and `transformations` are untouched
by both. -/
theorem c10_apply_mutates_only_ast (sem : Pass → Ast → Ast)
    (st : TransformerT) (p : Pass) :
    ((st.applyTransformation sem p).sourceCode = st.sourceCode
      ∧ (st.applyTransformation sem p).options = st.options
      ∧ (st.applyTransformation sem p).transformations = st.transformations)
    ∧ ((st.applyTransformations sem).sourceCode = st.sourceCode
      ∧ (st.applyTransformations sem).options = st.options
      ∧ (st.applyTransformations sem).transformations = st.transformations) := by
  rw [applyTransformations_eq]
  simp [TransformerT.applyTransformation]

/-- C2 counterexample: on a freshly constructed transformer (no `read`
ever called, `ast` still the initial `{}`), `applyTransformations` does
not fail with a StateError, and neither does `out` called before
`applyTransformations` — the source has no pipeline-state check at all;
both calls proceed and succeed. -/
theorem c2_counterexample :
    applyTransformationsChecked (fun _ a => a)
        (constructTransformer defaultOptions {}).1
      ≠ Except.error PipelineError.stateErr
    ∧ outChecked (fun _ _ => "g") (fun r _ => r)
        (constructTransformer defaultOptions {}).1
      ≠ Except.error PipelineError.stateErr := by
  constructor <;> simp [applyTransformationsChecked, outChecked]

/-- C2 amended: calling `applyTransformations` before `read`, or `out`
before `applyTransformations`, does not fail with a StateError; no state
is tracked, and both calls proceed against the initial empty-object tree:
`applyTransformations` folds the enabled passes over `{}` and `out`
generates (and, when the formatter is not `false`, formats) code from
`{}`. -/
theorem c2_no_state_check_proceeds (sem : Pass → Ast → Ast)
    (gen : Ast → String → String) (fmt : String → Option FmtSetting → String)
    (d o : Options) :
    applyTransformationsChecked sem (constructTransformer d o).1 =
      Except.ok
        { sourceCode := ""
          ast := (prepareTransformations (mergeOptions d o)).foldl
                   (fun a p => sem p a) Ast.emptyObj
          options := mergeOptions d o
          transformations := prepareTransformations (mergeOptions d o) }
    ∧ outChecked gen fmt (constructTransformer d o).1 =
      Except.ok
        (if (mergeOptions d o).formatter = some FmtSetting.fls
         then gen Ast.emptyObj ""
         else fmt (gen Ast.emptyObj "") (mergeOptions d o).formatter) := by
  refine ⟨?_, rfl⟩
  rw [applyTransformationsChecked, applyTransformations_eq]
  simp [constructTransformer]

/-- C3 counterexample: with `transformers.blockScopedBindings` set to
`false` (and nothing else overridden), the block-scoped-bindings (`let`)
pass is still in the pass list — the code keys that pass off
`transformers.let`, not `transformers.blockScopedBindings`. -/
theorem c3_counterexample :
    Pass.letTrans ∈ ((constructTransformer defaultOptions
      { transformers := { blockScopedBindings := some false } }).1).transformations := by
  decide

/-- C3 amended: the boolean key `transformers.let` controls the
block-scoped-bindings pass — `false` excludes it, omitting it leaves it
enabled by the compiled-in default — while the key
`transformers.blockScopedBindings` is ignored and never changes the pass
list. -/
theorem c3_let_key_controls_block_scoped_pass (o : Options) :
    (o.transformers.letB = some false →
      Pass.letTrans ∉
        ((constructTransformer defaultOptions o).1).transformations)
    ∧ (o.transformers.letB = none →
      Pass.letTrans ∈
        ((constructTransformer defaultOptions o).1).transformations)
    ∧ (∀ b : Option Bool,
        ((constructTransformer defaultOptions
            { o with transformers :=
                { o.transformers with blockScopedBindings := b } }).1).transformations
          = ((constructTransformer defaultOptions o).1).transformations) := by
  have hshape : ∀ o' : Options,
      ((constructTransformer defaultOptions o').1).transformations
        = orderedPasses.filter (shouldTransform (mergeOptions defaultOptions o')) := by
    intro o'
    simp [constructTransformer, prepareTransformations_eq_filter]
  refine ⟨?_, ?_, ?_⟩
  · intro h
    have hflag : shouldTransform (mergeOptions defaultOptions o) Pass.letTrans = false := by
      simp [shouldTransform, transformerFlag, mergeOptions, mergeTransformers,
        jsMergeField, h]
    rw [hshape]
    simp [List.mem_filter, hflag]
  · intro h
    have hflag : shouldTransform (mergeOptions defaultOptions o) Pass.letTrans = true := by
      simp [shouldTransform, transformerFlag, mergeOptions, mergeTransformers,
        jsMergeField, defaultOptions, h]
    rw [hshape]
    simp [List.mem_filter, hflag]
    decide
  · intro b
    have hfun : ∀ p, shouldTransform
        (mergeOptions defaultOptions
          { o with transformers :=
              { o.transformers with blockScopedBindings := b } }) p
        = shouldTransform (mergeOptions defaultOptions o) p := by
      intro p
      cases p <;> rfl
    rw [hshape, hshape]
    exact List.filter_congr (fun p _ => hfun p)

/-- Witness for C3 at concrete inputs: `let: false` excludes the pass,
omitting `let` keeps it. -/
theorem c3_let_key_controls_block_scoped_pass_witness :
    Pass.letTrans ∉ ((constructTransformer defaultOptions
        { transformers := { letB := some false } }).1).transformations
    ∧ Pass.letTrans ∈
        ((constructTransformer defaultOptions {}).1).transformations := by
  exact ⟨(c3_let_key_controls_block_scoped_pass _).1 rfl,
    (c3_let_key_controls_block_scoped_pass _).2.1 rfl⟩

/-- C4 counterexample: `read` mutates the options record — on a fresh
instance the record gains `ranges`, `onComment`, `onToken` and `plugins`
keys (part_000 lines 45-50 write into the very object `this.options`),
so the post-`read` record differs from the pre-`read` one. -/
theorem c4_counterexample :
    ((constructTransformer defaultOptions {}).1.read
        (fun _ => Ast.emptyObj) id "var x;").options
      ≠ (constructTransformer defaultOptions {}).1.options := by
  decide

/-- C4 amended: although `read` writes parser bookkeeping keys into the
options record, the six transformer flags and the formatter setting are
unchanged by every `read` and every `applyTransformations` call (`out`
and `writeFile` take the state read-only and return only text or a write
effect, so they change no field at all). -/
theorem c4_flags_and_formatter_preserved
    (parse : String → Ast) (cc : String → String) (sem : Pass → Ast → Ast)
    (st : TransformerT) (js : String) :
    ((st.read parse cc js).options.transformers = st.options.transformers
      ∧ (st.read parse cc js).options.formatter = st.options.formatter)
    ∧ (st.applyTransformations sem).options = st.options := by
  refine ⟨⟨rfl, rfl⟩, ?_⟩
  rw [applyTransformations_eq]

/-- C5: a construction with no overrides enables all six passes in order
with the formatter off; any omitted known key takes its compiled-in
default through the merge; and unknown keys (`blockScopedBindings`,
`sync` as representatives) never change which passes run. -/
theorem c5_defaults_and_unknown_keys (o : Options) :
    (((constructTransformer defaultOptions {}).1).transformations = orderedPasses
      ∧ ((constructTransformer defaultOptions {}).1).options.formatter
          = some FmtSetting.fls)
    ∧ (∀ p : Pass, transformerFlag o.transformers p = none →
        transformerFlag (mergeOptions defaultOptions o).transformers p
          = transformerFlag defaultOptions.transformers p)
    ∧ (o.formatter = none →
        (mergeOptions defaultOptions o).formatter = defaultOptions.formatter)
    ∧ (∀ (b : Option Bool) (s : Option Bool),
        ((constructTransformer defaultOptions
            { o with
                transformers := { o.transformers with blockScopedBindings := b }
                sync := s }).1).transformations
          = ((constructTransformer defaultOptions o).1).transformations) := by
  refine ⟨by decide, ?_, ?_, ?_⟩
  · intro p hp
    cases p <;>
      simp [transformerFlag, mergeOptions, mergeTransformers, jsMergeField] at hp ⊢ <;>
      simp [hp]
  · intro h
    simp [mergeOptions, jsMergeField, h]
  · intro b s
    have hfun : ∀ p, shouldTransform
        (mergeOptions defaultOptions
          { o with
              transformers := { o.transformers with blockScopedBindings := b }
              sync := s }) p
        = shouldTransform (mergeOptions defaultOptions o) p := by
      intro p
      cases p <;> rfl
    simp only [constructTransformer, prepareTransformations_eq_filter]
    exact List.filter_congr (fun p _ => hfun p)

/-- Witness for C5 at a concrete override that omits `let` and the
formatter and carries unknown keys. -/
theorem c5_defaults_and_unknown_keys_witness :
    transformerFlag (mergeOptions defaultOptions
        { transformers := { classes := some false } }).transformers Pass.letTrans
      = transformerFlag defaultOptions.transformers Pass.letTrans
    ∧ (mergeOptions defaultOptions
        { transformers := { classes := some false } }).formatter
      = defaultOptions.formatter
    ∧ ((constructTransformer defaultOptions
        { transformers := { classes := some false
                            blockScopedBindings := some false }
          sync := some true }).1).transformations
      = ((constructTransformer defaultOptions
          { transformers := { classes := some false } }).1).transformations := by
  exact ⟨(c5_defaults_and_unknown_keys _).2.1 Pass.letTrans rfl,
    (c5_defaults_and_unknown_keys _).2.2.1 rfl,
    (c5_defaults_and_unknown_keys
      { transformers := { classes := some false } }).2.2.2
      (some false) (some true)⟩

/-- C6: `out` returns the code-generator output unchanged exactly when
`options.formatter` is the sentinel `false`, and otherwise applies the
cosmetic formatter to that output (passing it the raw formatter value). -/
theorem c6_formatter_iff_not_disabled (gen : Ast → String → String)
    (fmt : String → Option FmtSetting → String) (st : TransformerT) :
    (st.options.formatter = some FmtSetting.fls →
      st.out gen fmt = gen st.ast st.sourceCode)
    ∧ (st.options.formatter ≠ some FmtSetting.fls →
      st.out gen fmt = fmt (gen st.ast st.sourceCode) st.options.formatter) := by
  constructor <;> intro h <;> simp [TransformerT.out, h]

/-- Witness for C6 at two concrete states: formatter disabled and
formatter configured. -/
theorem c6_formatter_iff_not_disabled_witness :
    TransformerT.out (fun _ s => s) (fun r _ => r ++ "!")
        { sourceCode := "a", ast := Ast.emptyObj,
          options := { formatter := some FmtSetting.fls },
          transformations := [] } = "a"
    ∧ TransformerT.out (fun _ s => s) (fun r _ => r ++ "!")
        { sourceCode := "a", ast := Ast.emptyObj,
          options := { formatter := some (FmtSetting.cfg []) },
          transformations := [] } = "a" ++ "!" := by
  exact ⟨(c6_formatter_iff_not_disabled _ _ _).1 rfl,
    (c6_formatter_iff_not_disabled _ _ _).2 (by decide)⟩

/-- C7: `writeFile` writes asynchronously exactly when the callback
argument is a function — the async write invokes the callback exactly
once, with the error as argument on failure — and otherwise writes
synchronously; both paths write the text `out` renders. -/
theorem c7_writeFile_sync_or_async (gen : Ast → String → String)
    (fmt : String → Option FmtSetting → String) (st : TransformerT)
    (path : String) (callback : JsCallbackArg) (outcome : IOOutcome) :
    (callback = JsCallbackArg.func →
      st.writeFile gen fmt path callback outcome =
          WriteEffect.asyncWrite path (st.out gen fmt)
            (fsWriteFileCallbackCalls outcome)
        ∧ (fsWriteFileCallbackCalls outcome).length = 1
        ∧ (∀ e, outcome = IOOutcome.failure e →
            fsWriteFileCallbackCalls outcome = [some e]))
    ∧ (callback ≠ JsCallbackArg.func →
      st.writeFile gen fmt path callback outcome =
        WriteEffect.syncWrite path (st.out gen fmt)) := by
  constructor
  · rintro rfl
    refine ⟨rfl, ?_, ?_⟩
    · cases outcome <;> rfl
    · rintro e rfl
      rfl
  · intro h
    cases callback with
    | func => exact absurd rfl h
    | missing => rfl
    | notFunction => rfl

/-- Witness for C7 at a concrete state: a function callback with a
failing write, and a missing callback. -/
theorem c7_writeFile_sync_or_async_witness :
    (TransformerT.writeFile (fun _ s => s) (fun r _ => r)
        (constructTransformer defaultOptions {}).1 "o.js"
        JsCallbackArg.func (IOOutcome.failure "EACCES") =
      WriteEffect.asyncWrite "o.js"
        ((constructTransformer defaultOptions {}).1.out (fun _ s => s) (fun r _ => r))
        (fsWriteFileCallbackCalls (IOOutcome.failure "EACCES"))
      ∧ fsWriteFileCallbackCalls (IOOutcome.failure "EACCES") = [some "EACCES"])
    ∧ TransformerT.writeFile (fun _ s => s) (fun r _ => r)
        (constructTransformer defaultOptions {}).1 "o.js"
        JsCallbackArg.missing IOOutcome.success =
      WriteEffect.syncWrite "o.js"
        ((constructTransformer defaultOptions {}).1.out (fun _ s => s) (fun r _ => r)) := by
  refine ⟨⟨?_, ?_⟩, ?_⟩
  · exact ((c7_writeFile_sync_or_async _ _ _ _ _ _).1 rfl).1
  · exact ((c7_writeFile_sync_or_async (fun _ s => s) (fun r _ => r)
      (constructTransformer defaultOptions {}).1 "o.js" JsCallbackArg.func
      (IOOutcome.failure "EACCES")).1 rfl).2.2 "EACCES" rfl
  · exact (c7_writeFile_sync_or_async _ _ _ _ _ _).2 (by decide)

/-- C8: the async branch of the AST generator's `readFile` hands the fs
callback's FIRST argument — Node's error slot — to `read`: on a
successful read of a file containing `var x = 1;` the completion is built
from `null`, not from the file's contents, and on an I/O failure the
`Error` object itself is fed to the parser instead of being delivered as
an error. -/
theorem c8_async_readFile_parses_error_slot :
    astGeneratorReadFile (fun _ => Ast.emptyObj) id "a.js"
        (Except.ok "var x = 1;") { hasCallback := true } =
      ReadFileResult.asyncDelivered (some JsVal.nullv)
    ∧ some JsVal.nullv ≠ some (JsVal.strv "var x = 1;")
    ∧ astGeneratorReadFile (fun _ => Ast.emptyObj) id "a.js"
        (Except.error "ENOENT") { hasCallback := true } =
      ReadFileResult.asyncDelivered (some (JsVal.errv "ENOENT")) := by
  refine ⟨by decide, by decide, by decide⟩

/-- C9: lodash `merge` writes the caller's overrides into the shared
`Transformer.defaultOptions` object: after constructing with
`classes: false`, the shared defaults differ from the compiled-in ones,
and a second construction with no overrides no longer runs the Classes
pass, though a construction from the pristine defaults does. -/
theorem c9_constructor_mutates_shared_defaults :
    (constructTransformer defaultOptions
        { transformers := { classes := some false } }).2 ≠ defaultOptions
    ∧ Pass.classes ∉
        ((constructTransformer
            (constructTransformer defaultOptions
              { transformers := { classes := some false } }).2 {}).1).transformations
    ∧ Pass.classes ∈
        ((constructTransformer defaultOptions {}).1).transformations := by
  decide

end Xto6
